import Mathlib

/-!
Verification of the JWT API-key authentication logic and the discovery-pane
data of the addons-server fragment.

The repository fragment ships the test suite of the JWT authentication
scheme (src/olympia/api/tests/test_jwt_auth.py) and the static discovery
data (src/olympia/discovery/data.py).  The validator itself
(olympia/api/jwt_auth/handlers.py and views.py) is not part of the
fragment, so it is modelled from the specification, with the fixed
user-facing messages taken from the assertions of the shipped tests.
-/

/-- An API-key record: issuer key, shared secret, owner identity reference
and active flag (mirrors `APIKey` with `type=SYMMETRIC_JWT_TYPE`). -/
structure APIKey where
  key : String
  secret : String
  user : Nat
  is_active : Bool
deriving Repr, DecidableEq

/-- A user profile: identity id, deleted flag and the (optional) timestamp
at which the developer agreement was read (mirrors `UserProfile` as used by
the tests: `deleted` and `read_dev_agreement`). -/
structure UserProfile where
  id : Nat
  deleted : Bool
  read_dev_agreement : Option Int
deriving Repr, DecidableEq

/-- The claims of a JWT payload: issuer, issued-at and expiry, each
optional because a client may omit it (the tests delete each in turn). -/
structure Payload where
  iss : Option String
  iat : Option Int
  exp : Option Int
deriving Repr, DecidableEq

/-- A structurally well-formed token: its payload plus the secret the
client signed it with.  A symmetric signature verifies exactly when the
signing secret equals the record secret, so the signature is modelled by
the signing secret itself. -/
structure Token where
  payload : Payload
  signedWith : String
deriving Repr, DecidableEq

/-- A raw bearer token string: either structurally malformed (garbage that
does not split into JWT segments) or a well-formed token. -/
inductive RawToken where
  | malformed (s : String)
  | wellFormed (t : Token)
deriving Repr, DecidableEq

/-- Configuration consumed by the validator: clock-skew leeway and the
maximum token lifetime, both in seconds (`JWT_AUTH['JWT_LEEWAY']` and
`MAX_APIKEY_JWT_AUTH_TOKEN_LIFETIME`). -/
structure Config where
  leeway : Int
  maxLifetime : Int
deriving Repr, DecidableEq

/-- The errors the decode handler can raise, mirroring the Python
exception classes the tests distinguish: `jwt.DecodeError`,
`jwt.ExpiredSignatureError`, any other `jwt.InvalidTokenError`, and
`rest_framework.exceptions.AuthenticationFailed`, each carrying its
message. -/
inductive HandlerError where
  | DecodeError (msg : String)
  | ExpiredSignature (msg : String)
  | OtherInvalidToken (msg : String)
  | AuthFailed (msg : String)
deriving Repr, DecidableEq

/-- The message carried by a handler error. -/
def HandlerError.message : HandlerError → String
  | .DecodeError m => m
  | .ExpiredSignature m => m
  | .OtherInvalidToken m => m
  | .AuthFailed m => m

/-- Taxonomy member `SignatureInvalid`: the tests show it is a
`jwt.DecodeError` with message "Signature verification failed". -/
def SignatureInvalid : HandlerError :=
  .DecodeError "Signature verification failed"

/-- Taxonomy member `Expired`: a `jwt.ExpiredSignatureError`; its
user-facing message is "Signature has expired.". -/
def Expired : HandlerError :=
  .ExpiredSignature "Signature has expired."

/-- Taxonomy member `MissingIssuer`. -/
def MissingIssuer : HandlerError :=
  .AuthFailed "JWT iss (issuer) claim is missing"

/-- Taxonomy member `UnknownIssuer`. -/
def UnknownIssuer : HandlerError :=
  .AuthFailed "Unknown JWT iss (issuer)"

/-- Taxonomy member `MissingIssuedAt`; message as asserted by
`test_missing_issued_at_time`. -/
def MissingIssuedAt : HandlerError :=
  .AuthFailed "Invalid JWT: Token is missing the \"iat\" claim"

/-- Taxonomy member `ClockSkewError`; the tests only require the message
to start with "JWT iat (issued at time) is invalid". -/
def ClockSkewError : HandlerError :=
  .AuthFailed "JWT iat (issued at time) is invalid. Make sure your system clock is synchronized."

/-- Taxonomy member `MissingExpiration`; message as asserted by
`test_missing_expiration`. -/
def MissingExpiration : HandlerError :=
  .AuthFailed "Invalid JWT: Token is missing the \"exp\" claim"

/-- Taxonomy member `ExpirationTooLong`. -/
def ExpirationTooLong : HandlerError :=
  .AuthFailed "JWT exp (expiration) is too long"

/-- Look an issuer up in the key store: only an active record with a
matching key is usable (mirrors the `get_api_key` collaborator of
`jwt_decode_handler`, which resolves only active symmetric-JWT records). -/
def get_api_key (keys : List APIKey) (iss : String) : Option APIKey :=
  keys.find? (fun r => r.key == iss && r.is_active)

/-- Modelled from the spec: `olympia.api.jwt_auth.handlers.jwt_decode_handler`
is absent from the fragment; this follows the validation steps of the spec
(structure, issuer, signature, issued-at, expiry), with the exception
classes and messages fixed by the shipped tests. -/
def jwt_decode_handler (cfg : Config) (now : Int) (keys : List APIKey)
    (raw : RawToken) : Except HandlerError Payload :=
  match raw with
  | .malformed _ => .error (.DecodeError "Not enough segments")
  | .wellFormed tok =>
    match tok.payload.iss with
    | none => .error MissingIssuer
    | some iss =>
      match get_api_key keys iss with
      | none => .error UnknownIssuer
      | some apiKey =>
        if tok.signedWith = apiKey.secret then
          match tok.payload.iat with
          | none => .error MissingIssuedAt
          | some iat =>
            if iat < now - cfg.leeway ∨ now + cfg.leeway < iat then
              .error ClockSkewError
            else
              match tok.payload.exp with
              | none => .error MissingExpiration
              | some e =>
                if e < now then .error Expired
                else if iat + cfg.maxLifetime < e then .error ExpirationTooLong
                else .ok tok.payload
        else .error SignatureInvalid

/-- The outcome of the authentication entry point: an authenticated user,
an `AuthenticationFailed` with a user-facing message, or an
`AuthenticationFailed` for an ineligible identity (the spec's
`IdentityIneligible`, for which the spec fixes no message). -/
inductive AuthOutcome where
  | success (user : UserProfile)
  | failure (msg : String)
  | identityIneligible
deriving Repr, DecidableEq

/-- Every outcome other than success is an authentication-failure signal. -/
def AuthOutcome.isAuthFailure : AuthOutcome → Bool
  | .success _ => false
  | .failure _ => true
  | .identityIneligible => true

/-- Modelled from the spec: the exception dispatch of
`JWTKeyAuthentication.authenticate`, absent from the fragment; the three
fixed messages are the ones asserted by `test_decode_expired_signature`,
`test_decode_decoding_error` and `test_decode_invalid_token`, and an
`AuthenticationFailed` raised by the handler keeps its own message. -/
def dispatch_jwt_error : HandlerError → String
  | .ExpiredSignature _ => "Signature has expired."
  | .DecodeError _ => "Error decoding signature."
  | .OtherInvalidToken _ => "Invalid JWT Token."
  | .AuthFailed m => m

/-- Modelled from the spec: the credential step of
`JWTKeyAuthentication.authenticate`, absent from the fragment; it resolves
the owner identity of the key record named by the payload issuer and
rejects a deleted identity or one that has not accepted the developer
agreement (`IdentityIneligible`). -/
def authenticate_credentials (keys : List APIKey) (users : List UserProfile)
    (payload : Payload) : AuthOutcome :=
  match payload.iss with
  | none => .failure "Invalid JWT Token."
  | some iss =>
    match get_api_key keys iss with
    | none => .failure "Unknown JWT iss (issuer)"
    | some apiKey =>
      match users.find? (fun u => u.id == apiKey.user) with
      | none => .failure "Invalid JWT Token."
      | some user =>
        if user.deleted then .identityIneligible
        else
          match user.read_dev_agreement with
          | none => .identityIneligible
          | some _ => .success user

/-- Modelled from the spec: `JWTKeyAuthentication.authenticate`, absent
from the fragment; it decodes the token, turns each handler error into an
authentication failure via `dispatch_jwt_error`, and otherwise resolves
and vets the owner identity. -/
def authenticate (cfg : Config) (now : Int) (keys : List APIKey)
    (users : List UserProfile) (raw : RawToken) : AuthOutcome :=
  match jwt_decode_handler cfg now keys raw with
  | .error e => .failure (dispatch_jwt_error e)
  | .ok payload => authenticate_credentials keys users payload

/-- Modelled from the spec: the constant `amo.ADDON_EXTENSION` lives in the
`olympia.amo` package, absent from the fragment; an opaque add-on type tag. -/
def ADDON_EXTENSION : Nat := 1

/-- A discovery-pane item (mirrors `DiscoItem` in
src/olympia/discovery/data.py: addon id, add-on type, translatable heading
and description). -/
structure DiscoItem where
  addon_id : Nat
  type : Nat
  heading : String
  description : String
deriving Repr, DecidableEq

/-- The translation wrapper `ugettext_lazy` (aliased `_` in data.py),
modelled as the identity on the base-locale string. -/
def ugettext (s : String) : String := s

/-- `django.utils.translation.string_concat`, modelled as concatenation of
the base-locale strings. -/
def string_concat (parts : List String) : String :=
  parts.foldl (fun a b => a ++ b) ""

/-- The hardcoded discovery-pane content (mirrors `discopane_items` in
src/olympia/discovery/data.py, including the missing closing bracket of
the final blockquote tag in every description). -/
def discopane_items : List DiscoItem := [
  { addon_id := 1865,
    type := ADDON_EXTENSION,
    heading := ugettext ("Block ads {start_sub_heading}with {addon_name}"
      ++ "{end_sub_heading}"),
    description := string_concat [
      "<blockquote>",
      ugettext "“This add-on is amazing. Blocks all annoying ads. 5 stars.”",
      "<cite>— rany</cite>",
      "</blockquote"] },
  { addon_id := 287841,
    type := ADDON_EXTENSION,
    heading := ugettext ("Take screenshots {start_sub_heading}with {addon_name}"
      ++ "{end_sub_heading}"),
    description := string_concat [
      "<blockquote>",
      ugettext "“The best. Very easy to use.”",
      "<cite>— meetdak</cite>",
      "</blockquote"] },
  { addon_id := 511962,
    type := ADDON_EXTENSION,
    heading := ugettext ("Up your emoji game {start_sub_heading}with {addon_name}"
      ++ "{end_sub_heading}"),
    description := string_concat [
      "<blockquote>",
      ugettext "“Very simple interface and easy to use. Thank you.”",
      "<cite>— shadypurple</cite>",
      "</blockquote"] },
  { addon_id := 3006,
    type := ADDON_EXTENSION,
    heading := ugettext ("Download videos {start_sub_heading}with {addon_name}"
      ++ "{end_sub_heading}"),
    description := string_concat [
      "<blockquote>",
      ugettext "“Download videos in a single click.”",
      "<cite>— Carpe Diem</cite>",
      "</blockquote"] }
]

/-- C10: discopane_items is a fixed list of exactly four DiscoItem entries,
in order with addon_id 1865, 287841, 511962, 3006, each of type
ADDON_EXTENSION and each carrying a non-empty heading and description. -/
theorem claim_C10 :
    discopane_items.length = 4
    ∧ discopane_items.map DiscoItem.addon_id = [1865, 287841, 511962, 3006]
    ∧ discopane_items.all
        (fun i => i.type == ADDON_EXTENSION
          && !i.heading.isEmpty && !i.description.isEmpty) = true :=
  ⟨rfl, rfl, by decide⟩

/-- C9: at the authentication entry point, a structural decode error from
the decode handler surfaces as an authentication failure with exactly the
message "Error decoding signature.", any other invalid-token error as
exactly "Invalid JWT Token.", and every handler error reaches the caller
through this dispatch. -/
theorem claim_C9 :
    (∀ m : String,
      dispatch_jwt_error (.DecodeError m) = "Error decoding signature.")
    ∧ (∀ m : String,
      dispatch_jwt_error (.OtherInvalidToken m) = "Invalid JWT Token.")
    ∧ ∀ (cfg : Config) (now : Int) (keys : List APIKey)
        (users : List UserProfile) (raw : RawToken) (e : HandlerError),
        jwt_decode_handler cfg now keys raw = .error e →
        authenticate cfg now keys users raw
          = .failure (dispatch_jwt_error e) := by
  refine ⟨fun m => rfl, fun m => rfl,
    fun cfg now keys users raw e h => ?_⟩
  simp [authenticate, h]

/-- C9 witness at a malformed token. -/
theorem claim_C9_witness :
    jwt_decode_handler ⟨5, 60⟩ 0 [] (.malformed "garbage")
      = .error (.DecodeError "Not enough segments")
    ∧ authenticate ⟨5, 60⟩ 0 [] [] (.malformed "garbage")
      = .failure (dispatch_jwt_error (.DecodeError "Not enough segments")) :=
  ⟨rfl, claim_C9.2.2 ⟨5, 60⟩ 0 [] [] (.malformed "garbage")
    (.DecodeError "Not enough segments") rfl⟩

/-- C2: a token whose signature does not verify against the secret of the
API-key record resolved from its iss claim fails with SignatureInvalid
("Signature verification failed"), and this surfaces to the caller as an
authentication-failure signal. -/
theorem claim_C2 (cfg : Config) (now : Int) (keys : List APIKey)
    (users : List UserProfile) (tok : Token) (iss : String) (k : APIKey)
    (hiss : tok.payload.iss = some iss)
    (hk : get_api_key keys iss = some k)
    (hsig : tok.signedWith ≠ k.secret) :
    jwt_decode_handler cfg now keys (.wellFormed tok) = .error SignatureInvalid
    ∧ SignatureInvalid.message = "Signature verification failed"
    ∧ (authenticate cfg now keys users (.wellFormed tok)).isAuthFailure
        = true := by
  have h1 : jwt_decode_handler cfg now keys (.wellFormed tok)
      = .error SignatureInvalid := by
    simp [jwt_decode_handler, hiss, hk, hsig]
  exact ⟨h1, rfl, by simp [authenticate, h1, AuthOutcome.isAuthFailure]⟩

/-- C2 witness at a token signed with the wrong secret. -/
theorem claim_C2_witness :
    (Token.mk ⟨some "i", some 0, some 0⟩ "wrong").payload.iss = some "i"
    ∧ get_api_key [⟨"i", "s", 1, true⟩] "i" = some ⟨"i", "s", 1, true⟩
    ∧ (Token.mk ⟨some "i", some 0, some 0⟩ "wrong").signedWith
        ≠ APIKey.secret ⟨"i", "s", 1, true⟩
    ∧ (jwt_decode_handler ⟨5, 60⟩ 0 [⟨"i", "s", 1, true⟩]
        (.wellFormed ⟨⟨some "i", some 0, some 0⟩, "wrong"⟩)
        = .error SignatureInvalid
      ∧ SignatureInvalid.message = "Signature verification failed"
      ∧ (authenticate ⟨5, 60⟩ 0 [⟨"i", "s", 1, true⟩] []
          (.wellFormed ⟨⟨some "i", some 0, some 0⟩, "wrong"⟩)).isAuthFailure
          = true) :=
  ⟨rfl, by decide, by decide,
    claim_C2 ⟨5, 60⟩ 0 [⟨"i", "s", 1, true⟩] [] _ "i" ⟨"i", "s", 1, true⟩
      rfl (by decide) (by decide)⟩

/-- C3: a token whose exp claim is present but already in the past fails
with Expired carrying the message "Signature has expired.", surfaced to
the caller as an authentication failure with that message. -/
theorem claim_C3 (cfg : Config) (now : Int) (keys : List APIKey)
    (users : List UserProfile) (tok : Token) (iss : String) (k : APIKey)
    (iat e : Int)
    (hiss : tok.payload.iss = some iss)
    (hk : get_api_key keys iss = some k)
    (hsig : tok.signedWith = k.secret)
    (hiat : tok.payload.iat = some iat)
    (hlo : now - cfg.leeway ≤ iat) (hhi : iat ≤ now + cfg.leeway)
    (hexp : tok.payload.exp = some e)
    (hpast : e < now) :
    jwt_decode_handler cfg now keys (.wellFormed tok) = .error Expired
    ∧ Expired.message = "Signature has expired."
    ∧ authenticate cfg now keys users (.wellFormed tok)
        = .failure "Signature has expired." := by
  have hskew : ¬(iat < now - cfg.leeway ∨ now + cfg.leeway < iat) := by omega
  have h1 : jwt_decode_handler cfg now keys (.wellFormed tok)
      = .error Expired := by
    simp [jwt_decode_handler, hiss, hk, hsig, hiat, hexp, hskew, hpast]
  refine ⟨h1, rfl, by simp [authenticate, h1]; rfl⟩

/-- C3 witness at a token whose expiry has already passed. -/
theorem claim_C3_witness :
    get_api_key [⟨"i", "s", 1, true⟩] "i" = some ⟨"i", "s", 1, true⟩
    ∧ (1000 : Int) - 5 ≤ 1000 ∧ (1000 : Int) ≤ 1000 + 5
    ∧ (990 : Int) < 1000
    ∧ (jwt_decode_handler ⟨5, 60⟩ 1000 [⟨"i", "s", 1, true⟩]
        (.wellFormed ⟨⟨some "i", some 1000, some 990⟩, "s"⟩) = .error Expired
      ∧ Expired.message = "Signature has expired."
      ∧ authenticate ⟨5, 60⟩ 1000 [⟨"i", "s", 1, true⟩] []
          (.wellFormed ⟨⟨some "i", some 1000, some 990⟩, "s"⟩)
          = .failure "Signature has expired.") :=
  ⟨by decide, by decide, by decide, by decide,
    claim_C3 ⟨5, 60⟩ 1000 [⟨"i", "s", 1, true⟩] [] _ "i" ⟨"i", "s", 1, true⟩
      1000 990 rfl (by decide) rfl rfl (by decide) (by decide) rfl
      (by decide)⟩

/-- C4: a token whose iss claim is present but does not resolve to an
active API-key record, because every record either has a different key or
is inactive, fails with UnknownIssuer ("Unknown JWT iss (issuer)"). -/
theorem claim_C4 (cfg : Config) (now : Int) (keys : List APIKey)
    (tok : Token) (iss : String)
    (hiss : tok.payload.iss = some iss)
    (hnone : ∀ k ∈ keys, k.key = iss → k.is_active = false) :
    jwt_decode_handler cfg now keys (.wellFormed tok) = .error UnknownIssuer
    ∧ UnknownIssuer.message = "Unknown JWT iss (issuer)" := by
  have hfind : get_api_key keys iss = none := by
    rw [get_api_key, List.find?_eq_none]
    intro x hx
    simp only [Bool.and_eq_true, beq_iff_eq, not_and]
    intro hkey
    simp [hnone x hx hkey]
  exact ⟨by simp [jwt_decode_handler, hiss, hfind], rfl⟩

/-- C4 witness at a token whose issuer matches only an inactive record. -/
theorem claim_C4_witness :
    (∀ k ∈ [APIKey.mk "i" "s" 1 false], k.key = "i" → k.is_active = false)
    ∧ (jwt_decode_handler ⟨5, 60⟩ 0 [⟨"i", "s", 1, false⟩]
        (.wellFormed ⟨⟨some "i", some 0, some 0⟩, "s"⟩) = .error UnknownIssuer
      ∧ UnknownIssuer.message = "Unknown JWT iss (issuer)") :=
  ⟨by decide,
    claim_C4 ⟨5, 60⟩ 0 [⟨"i", "s", 1, false⟩] _ "i" rfl (by decide)⟩

/-- C5: a token (passing the earlier structural, issuer, signature and
issued-at checks, and not already expired) whose exp claim exceeds its iat
claim plus the configured maximum lifetime fails with ExpirationTooLong
("JWT exp (expiration) is too long"). -/
theorem claim_C5 (cfg : Config) (now : Int) (keys : List APIKey)
    (tok : Token) (iss : String) (k : APIKey) (iat e : Int)
    (hiss : tok.payload.iss = some iss)
    (hk : get_api_key keys iss = some k)
    (hsig : tok.signedWith = k.secret)
    (hiat : tok.payload.iat = some iat)
    (hlo : now - cfg.leeway ≤ iat) (hhi : iat ≤ now + cfg.leeway)
    (hexp : tok.payload.exp = some e)
    (hnotpast : now ≤ e)
    (hlong : iat + cfg.maxLifetime < e) :
    jwt_decode_handler cfg now keys (.wellFormed tok)
      = .error ExpirationTooLong
    ∧ ExpirationTooLong.message = "JWT exp (expiration) is too long" := by
  have hskew : ¬(iat < now - cfg.leeway ∨ now + cfg.leeway < iat) := by omega
  have hp : ¬(e < now) := by omega
  refine ⟨?_, rfl⟩
  simp [jwt_decode_handler, hiss, hk, hsig, hiat, hexp, hskew, hp, hlong]

/-- C5 witness at a token living one second longer than allowed. -/
theorem claim_C5_witness :
    get_api_key [⟨"i", "s", 1, true⟩] "i" = some ⟨"i", "s", 1, true⟩
    ∧ (1000 : Int) + 60 < 1061
    ∧ (jwt_decode_handler ⟨5, 60⟩ 1000 [⟨"i", "s", 1, true⟩]
        (.wellFormed ⟨⟨some "i", some 1000, some 1061⟩, "s"⟩)
        = .error ExpirationTooLong
      ∧ ExpirationTooLong.message = "JWT exp (expiration) is too long") :=
  ⟨by decide, by decide,
    claim_C5 ⟨5, 60⟩ 1000 [⟨"i", "s", 1, true⟩] _ "i" ⟨"i", "s", 1, true⟩
      1000 1061 rfl (by decide) rfl rfl (by decide) (by decide) rfl
      (by decide) (by decide)⟩

/-- C6: a token whose iat claim is present but outside the window
[now - leeway, now + leeway] fails with ClockSkewError, whose message is
prefixed "JWT iat (issued at time) is invalid". -/
theorem claim_C6 (cfg : Config) (now : Int) (keys : List APIKey)
    (tok : Token) (iss : String) (k : APIKey) (iat : Int)
    (hiss : tok.payload.iss = some iss)
    (hk : get_api_key keys iss = some k)
    (hsig : tok.signedWith = k.secret)
    (hiat : tok.payload.iat = some iat)
    (hskew : iat < now - cfg.leeway ∨ now + cfg.leeway < iat) :
    jwt_decode_handler cfg now keys (.wellFormed tok) = .error ClockSkewError
    ∧ ∃ rest : String, ClockSkewError.message
        = "JWT iat (issued at time) is invalid" ++ rest := by
  refine ⟨?_, ". Make sure your system clock is synchronized.", by decide⟩
  simp [jwt_decode_handler, hiss, hk, hsig, hiat, hskew]

/-- C6 witness at a token issued 15 seconds into the future with a
5-second leeway. -/
theorem claim_C6_witness :
    ((1015 : Int) < 1000 - 5 ∨ (1000 : Int) + 5 < 1015)
    ∧ (jwt_decode_handler ⟨5, 60⟩ 1000 [⟨"i", "s", 1, true⟩]
        (.wellFormed ⟨⟨some "i", some 1015, some 1060⟩, "s"⟩)
        = .error ClockSkewError
      ∧ ∃ rest : String, ClockSkewError.message
          = "JWT iat (issued at time) is invalid" ++ rest) :=
  ⟨by decide,
    claim_C6 ⟨5, 60⟩ 1000 [⟨"i", "s", 1, true⟩] _ "i" ⟨"i", "s", 1, true⟩
      1015 rfl (by decide) rfl rfl (by decide)⟩

/-- C7: a structurally valid token missing a mandatory claim fails with
the corresponding classified error: missing iss gives MissingIssuer with
message "JWT iss (issuer) claim is missing"; missing iat gives
MissingIssuedAt; missing exp gives MissingExpiration. -/
theorem claim_C7 (cfg : Config) (now : Int) (keys : List APIKey) :
    (∀ tok : Token, tok.payload.iss = none →
      jwt_decode_handler cfg now keys (.wellFormed tok) = .error MissingIssuer
      ∧ MissingIssuer.message = "JWT iss (issuer) claim is missing")
    ∧ (∀ (tok : Token) (iss : String) (k : APIKey),
        tok.payload.iss = some iss → get_api_key keys iss = some k →
        tok.signedWith = k.secret → tok.payload.iat = none →
        jwt_decode_handler cfg now keys (.wellFormed tok)
          = .error MissingIssuedAt)
    ∧ (∀ (tok : Token) (iss : String) (k : APIKey) (iat : Int),
        tok.payload.iss = some iss → get_api_key keys iss = some k →
        tok.signedWith = k.secret → tok.payload.iat = some iat →
        now - cfg.leeway ≤ iat → iat ≤ now + cfg.leeway →
        tok.payload.exp = none →
        jwt_decode_handler cfg now keys (.wellFormed tok)
          = .error MissingExpiration) := by
  refine ⟨fun tok hiss => ⟨by simp [jwt_decode_handler, hiss], rfl⟩,
    fun tok iss k hiss hk hsig hiat => ?_,
    fun tok iss k iat hiss hk hsig hiat hlo hhi hexp => ?_⟩
  · simp [jwt_decode_handler, hiss, hk, hsig, hiat]
  · have hskew : ¬(iat < now - cfg.leeway ∨ now + cfg.leeway < iat) := by
      omega
    simp [jwt_decode_handler, hiss, hk, hsig, hiat, hexp, hskew]

/-- C7 witness at tokens missing iss, iat and exp respectively. -/
theorem claim_C7_witness :
    (jwt_decode_handler ⟨5, 60⟩ 1000 [⟨"i", "s", 1, true⟩]
        (.wellFormed ⟨⟨none, some 1000, some 1060⟩, "s"⟩)
        = .error MissingIssuer
      ∧ MissingIssuer.message = "JWT iss (issuer) claim is missing")
    ∧ jwt_decode_handler ⟨5, 60⟩ 1000 [⟨"i", "s", 1, true⟩]
        (.wellFormed ⟨⟨some "i", none, some 1060⟩, "s"⟩)
        = .error MissingIssuedAt
    ∧ jwt_decode_handler ⟨5, 60⟩ 1000 [⟨"i", "s", 1, true⟩]
        (.wellFormed ⟨⟨some "i", some 1000, none⟩, "s"⟩)
        = .error MissingExpiration :=
  ⟨(claim_C7 ⟨5, 60⟩ 1000 [⟨"i", "s", 1, true⟩]).1 _ rfl,
    (claim_C7 ⟨5, 60⟩ 1000 [⟨"i", "s", 1, true⟩]).2.1 _ "i"
      ⟨"i", "s", 1, true⟩ rfl (by decide) rfl rfl,
    (claim_C7 ⟨5, 60⟩ 1000 [⟨"i", "s", 1, true⟩]).2.2 _ "i"
      ⟨"i", "s", 1, true⟩ 1000 rfl (by decide) rfl rfl (by decide)
      (by decide) rfl⟩

/-- C1: a token whose iss names an active API-key record, signed with that
record's secret, with iat equal to now and exp equal to iat plus the
configured maximum lifetime, whose owner identity is neither deleted nor
missing the required agreement, authenticates successfully and returns
that owner identity. -/
theorem claim_C1 (cfg : Config) (now : Int) (keys : List APIKey)
    (users : List UserProfile) (iss : String) (k : APIKey)
    (u : UserProfile) (d : Int)
    (hleeway : 0 ≤ cfg.leeway) (hmax : 0 ≤ cfg.maxLifetime)
    (hk : get_api_key keys iss = some k)
    (hu : users.find? (fun x => x.id == k.user) = some u)
    (hdel : u.deleted = false)
    (hagr : u.read_dev_agreement = some d) :
    authenticate cfg now keys users
      (.wellFormed ⟨⟨some iss, some now, some (now + cfg.maxLifetime)⟩,
        k.secret⟩)
      = .success u := by
  have hs1 : ¬(now < now - cfg.leeway) := by omega
  have hs2 : ¬(cfg.leeway < 0) := by omega
  have hp : ¬(now + cfg.maxLifetime < now) := by omega
  have hl : ¬(now + cfg.maxLifetime < now + cfg.maxLifetime) := by omega
  simp [authenticate, jwt_decode_handler, authenticate_credentials,
    hk, hu, hs1, hs2, hp, hl, hdel, hagr]

/-- C1 witness at the example of the spec: issuer "some-user-key", secret
"some-shared-secret", iat = now, exp = now + maximum lifetime. -/
theorem claim_C1_witness :
    get_api_key [⟨"some-user-key", "some-shared-secret", 1, true⟩]
        "some-user-key"
      = some ⟨"some-user-key", "some-shared-secret", 1, true⟩
    ∧ List.find? (fun x => x.id == 1) [UserProfile.mk 1 false (some 0)]
        = some ⟨1, false, some 0⟩
    ∧ authenticate ⟨5, 60⟩ 1000
        [⟨"some-user-key", "some-shared-secret", 1, true⟩]
        [⟨1, false, some 0⟩]
        (.wellFormed ⟨⟨some "some-user-key", some 1000, some (1000 + 60)⟩,
          "some-shared-secret"⟩)
        = .success ⟨1, false, some 0⟩ :=
  ⟨by decide, by decide,
    claim_C1 ⟨5, 60⟩ 1000
      [⟨"some-user-key", "some-shared-secret", 1, true⟩]
      [⟨1, false, some 0⟩] "some-user-key"
      ⟨"some-user-key", "some-shared-secret", 1, true⟩
      ⟨1, false, some 0⟩ 0 (by decide) (by decide) (by decide) (by decide)
      rfl rfl⟩

/-- C8: a token passing every structural, signature and claim check fails
with IdentityIneligible, an authentication failure, when its resolved
owner identity is deleted or has not accepted the agreement, and the same
token succeeds once the identity is eligible. -/
theorem claim_C8 (cfg : Config) (now : Int) (keys : List APIKey)
    (users : List UserProfile) (tok : Token) (iss : String) (k : APIKey)
    (u : UserProfile) (iat e : Int)
    (hiss : tok.payload.iss = some iss)
    (hk : get_api_key keys iss = some k)
    (hsig : tok.signedWith = k.secret)
    (hiat : tok.payload.iat = some iat)
    (hlo : now - cfg.leeway ≤ iat) (hhi : iat ≤ now + cfg.leeway)
    (hexp : tok.payload.exp = some e)
    (hnotpast : now ≤ e) (hnotlong : e ≤ iat + cfg.maxLifetime)
    (hu : users.find? (fun x => x.id == k.user) = some u) :
    (u.deleted = true ∨ u.read_dev_agreement = none →
      authenticate cfg now keys users (.wellFormed tok)
        = .identityIneligible
      ∧ AuthOutcome.identityIneligible.isAuthFailure = true)
    ∧ (u.deleted = false → ∀ d : Int, u.read_dev_agreement = some d →
      authenticate cfg now keys users (.wellFormed tok) = .success u) := by
  have hskew : ¬(iat < now - cfg.leeway ∨ now + cfg.leeway < iat) := by omega
  have hp : ¬(e < now) := by omega
  have hl : ¬(iat + cfg.maxLifetime < e) := by omega
  have h1 : jwt_decode_handler cfg now keys (.wellFormed tok)
      = .ok tok.payload := by
    simp [jwt_decode_handler, hiss, hk, hsig, hiat, hexp, hskew, hp, hl]
  constructor
  · rintro (hdel | hagr)
    · exact ⟨by simp [authenticate, h1, authenticate_credentials, hiss, hk,
        hu, hdel], rfl⟩
    · rcases hd : u.deleted with _ | _
      · exact ⟨by simp [authenticate, h1, authenticate_credentials, hiss,
          hk, hu, hd, hagr], rfl⟩
      · exact ⟨by simp [authenticate, h1, authenticate_credentials, hiss,
          hk, hu, hd], rfl⟩
  · intro hdel d hagr
    simp [authenticate, h1, authenticate_credentials, hiss, hk, hu, hdel,
      hagr]

/-- C8 witness: the same valid token is rejected for a deleted owner and
accepted once the owner is eligible. -/
theorem claim_C8_witness :
    (authenticate ⟨5, 60⟩ 1000 [⟨"i", "s", 1, true⟩] [⟨1, true, some 0⟩]
        (.wellFormed ⟨⟨some "i", some 1000, some 1060⟩, "s"⟩)
        = .identityIneligible
      ∧ AuthOutcome.identityIneligible.isAuthFailure = true)
    ∧ authenticate ⟨5, 60⟩ 1000 [⟨"i", "s", 1, true⟩] [⟨1, false, some 0⟩]
        (.wellFormed ⟨⟨some "i", some 1000, some 1060⟩, "s"⟩)
        = .success ⟨1, false, some 0⟩ :=
  ⟨(claim_C8 ⟨5, 60⟩ 1000 [⟨"i", "s", 1, true⟩] [⟨1, true, some 0⟩] _ "i"
      ⟨"i", "s", 1, true⟩ ⟨1, true, some 0⟩ 1000 1060 rfl (by decide) rfl
      rfl (by decide) (by decide) rfl (by decide) (by decide)
      (by decide)).1 (Or.inl rfl),
    (claim_C8 ⟨5, 60⟩ 1000 [⟨"i", "s", 1, true⟩] [⟨1, false, some 0⟩] _ "i"
      ⟨"i", "s", 1, true⟩ ⟨1, false, some 0⟩ 1000 1060 rfl (by decide) rfl
      rfl (by decide) (by decide) rfl (by decide) (by decide)
      (by decide)).2 rfl 0 rfl⟩
